import Mathlib

/-!
Verification of the block-translation engines of the dissect.hypervisor library
against its specification. Each format section first gives a shallow embedding
of the relevant source functions, then definitions taken from the wording of the
specification where a comparison is needed, and finally the theorems.
-/

namespace QCow2

/-- Constant `L2E_OFFSET_MASK` (and `L1E_OFFSET_MASK`) from the qcow2 constant
definitions. -/
def L2E_OFFSET_MASK : Nat := 0x00fffffffffffe00

/-- Constant `L2E_COMPRESSED_OFFSET_SIZE_MASK` from the qcow2 constant definitions. -/
def L2E_COMPRESSED_OFFSET_SIZE_MASK : Nat := 0x3fffffffffffffff

/-- Flag `QCOW_OFLAG_COPIED` (bit 63). -/
def QCOW_OFLAG_COPIED : Nat := 1 <<< 63

/-- Flag `QCOW_OFLAG_COMPRESSED` (bit 62). -/
def QCOW_OFLAG_COMPRESSED : Nat := 1 <<< 62

/-- Flag `QCOW_OFLAG_ZERO` (bit 0). -/
def QCOW_OFLAG_ZERO : Nat := 1

/-- Helper `ctz` from the qcow2 constant module: returns the index of the lowest
set bit of `value` among the lowest `size` bits, and `none` when no such bit is
set (the Python function falls off the loop and returns `None`). -/
def ctz (value : Nat) (size : Nat := 32) : Option Nat :=
  (List.range size).find? (fun i => value &&& (1 <<< i) != 0)

/-- The qcow2 cluster types. -/
inductive ClusterType where
  | unallocated
  | zeroPlain
  | zeroAlloc
  | normal
  | compressed
deriving DecidableEq, Repr

/-- The qcow2 subcluster types. -/
inductive SubclusterType where
  | unallocatedPlain
  | unallocatedAlloc
  | zeroPlain
  | zeroAlloc
  | normal
  | compressed
  | invalid
deriving DecidableEq, BEq, Repr

/-- The parameters of an opened qcow2 image that the subcluster helpers consult:
`has_subclusters` (the extended-L2 incompatible feature bit) and `has_data_file`. -/
structure Config where
  hasSubclusters : Bool
  hasDataFile : Bool
deriving DecidableEq, Repr

/-- Field `subclusters_per_cluster`: 32 for extended-L2 images, 1 otherwise. -/
def Config.subclustersPerCluster (q : Config) : Nat :=
  if q.hasSubclusters then 32 else 1

/-- Embedding of `get_cluster_type` from the qcow2 module. -/
def get_cluster_type (q : Config) (l2_entry : Nat) : ClusterType :=
  if l2_entry &&& QCOW_OFLAG_COMPRESSED != 0 then .compressed
  else if l2_entry &&& QCOW_OFLAG_ZERO != 0 && !q.hasSubclusters then
    if l2_entry &&& L2E_OFFSET_MASK != 0 then .zeroAlloc else .zeroPlain
  else if l2_entry &&& L2E_OFFSET_MASK == 0 then
    if q.hasDataFile && (l2_entry &&& QCOW_OFLAG_COPIED != 0) then .normal
    else .unallocated
  else .normal

/-- Embedding of `get_subcluster_type` from the qcow2 module. The `Except`
error models the `raise Error(...)` branches for impossible cluster types. -/
def get_subcluster_type (q : Config) (l2_entry l2_bitmap sc_index : Nat) :
    Except String SubclusterType :=
  let c_type := get_cluster_type q l2_entry
  let sc_alloc_mask := 1 <<< sc_index
  let sc_zero_mask := sc_alloc_mask <<< 32
  if q.hasSubclusters then
    match c_type with
    | .compressed => .ok .compressed
    | .normal =>
      if (l2_bitmap >>> 32) &&& l2_bitmap != 0 then .ok .invalid
      else if l2_bitmap &&& sc_zero_mask != 0 then .ok .zeroAlloc
      else if l2_bitmap &&& sc_alloc_mask != 0 then .ok .normal
      else .ok .unallocatedAlloc
    | .unallocated =>
      if l2_bitmap &&& ((1 <<< 32) - 1) != 0 then .ok .invalid
      else if l2_bitmap &&& sc_zero_mask != 0 then .ok .zeroPlain
      else .ok .unallocatedPlain
    | _ => .error "Invalid cluster type"
  else
    match c_type with
    | .compressed => .ok .compressed
    | .zeroPlain => .ok .zeroPlain
    | .zeroAlloc => .ok .zeroAlloc
    | .normal => .ok .normal
    | .unallocated => .ok .unallocatedPlain

/-- Membership of a subcluster type in `ZERO_SUBCLUSTER_TYPES`. -/
def isZeroSubclusterType : SubclusterType → Bool
  | .zeroPlain | .zeroAlloc => true
  | _ => false

/-- Membership of a subcluster type in `UNALLOCATED_SUBCLUSTER_TYPES`. -/
def isUnallocatedSubclusterType : SubclusterType → Bool
  | .unallocatedPlain | .unallocatedAlloc => true
  | _ => false

/-- Embedding of `get_subcluster_range_type` from the qcow2 module. The count is
an `Int` because the Python expression `ctz(val) - sc_from` can go negative, and
the `TypeError` error models `None - sc_from` when `ctz` returns `None`. -/
def get_subcluster_range_type (q : Config) (l2_entry l2_bitmap sc_from : Nat) :
    Except String (SubclusterType × Int) := do
  let sc_type ← get_subcluster_type q l2_entry l2_bitmap sc_from
  if !q.hasSubclusters || sc_type == .compressed then
    return (sc_type, (q.subclustersPerCluster : Int) - (sc_from : Int))
  let sc_mask := (1 <<< sc_from) - 1
  if sc_type == .normal then
    let val := l2_bitmap ||| sc_mask
    match ctz val with
    | some c => return (sc_type, (c : Int) - (sc_from : Int))
    | none => throw "TypeError"
  else if isZeroSubclusterType sc_type then
    let val := (l2_bitmap ||| sc_mask) >>> 32
    match ctz val with
    | some c => return (sc_type, (c : Int) - (sc_from : Int))
    | none => throw "TypeError"
  else if isUnallocatedSubclusterType sc_type then
    -- Python computes `~sc_mask & ((1 << 64) - 1)`, the complement within 64 bits
    let inv_mask := ((1 <<< 64) - 1) - (sc_mask % (1 <<< 64))
    let val := ((l2_bitmap >>> 32) ||| l2_bitmap) &&& inv_mask
    match ctz val with
    | some c => return (sc_type, (c : Int) - (sc_from : Int))
    | none => throw "TypeError"
  else
    throw "Invalid subcluster type"

/-- Boolean equality of subcluster-type classification results. -/
def subclusterResultEq : Except String SubclusterType → Except String SubclusterType → Bool
  | .ok a, .ok b => a == b
  | .error a, .error b => a == b
  | _, _ => false

/-- The quantity the specification says the contiguous-run helper returns: the
number of consecutive subclusters, starting at `sc_from` within the cluster,
whose subcluster type equals the type at `sc_from`. -/
def spec_subcluster_run_length (q : Config) (l2_entry l2_bitmap sc_from : Nat) : Nat :=
  let t0 := get_subcluster_type q l2_entry l2_bitmap sc_from
  ((List.range (q.subclustersPerCluster - sc_from)).takeWhile
    (fun j => subclusterResultEq (get_subcluster_type q l2_entry l2_bitmap (sc_from + j)) t0)).length

/-- An extended-L2 image configuration (no external data file). -/
def extCfg : Config := { hasSubclusters := true, hasDataFile := false }

end QCow2

/-- C1: for extended-L2 images the contiguous-run helper `get_subcluster_range_type`
is claimed to return the number of consecutive subclusters of the same subcluster
type as the one at `sc_from`. Evaluating the embedded code at a Normal cluster
(`l2_entry = 0x10000`) whose bitmap allocates exactly subcluster 0
(`l2_bitmap = 1`) with `sc_from = 0` yields a count of 0, while the number of
consecutive Normal subclusters starting at 0 is 1: the code counts trailing
zeros of `l2_bitmap | ((1 << sc_from) - 1)` where the reference implementation
counts trailing ones. -/
theorem qcow2_subcluster_range_count_bug :
    QCow2.get_subcluster_range_type QCow2.extCfg 0x10000 1 0
        = .ok (QCow2.SubclusterType.normal, 0)
    ∧ QCow2.spec_subcluster_run_length QCow2.extCfg 0x10000 1 0 = 1 := by
  exact ⟨rfl, by decide⟩

namespace VHDX

/-- BAT payload-block entry states from the VHDX constant definitions. -/
def PAYLOAD_BLOCK_NOT_PRESENT : Nat := 0

/-- State `PAYLOAD_BLOCK_UNDEFINED`. -/
def PAYLOAD_BLOCK_UNDEFINED : Nat := 1

/-- State `PAYLOAD_BLOCK_ZERO`. -/
def PAYLOAD_BLOCK_ZERO : Nat := 2

/-- State `PAYLOAD_BLOCK_UNMAPPED`. -/
def PAYLOAD_BLOCK_UNMAPPED : Nat := 3

/-- State `PAYLOAD_BLOCK_FULLY_PRESENT`. -/
def PAYLOAD_BLOCK_FULLY_PRESENT : Nat := 6

/-- State `PAYLOAD_BLOCK_PARTIALLY_PRESENT`. -/
def PAYLOAD_BLOCK_PART_PRESENT : Nat := 7

/-- Constant `MB`. -/
def MB : Nat := 1024 * 1024

/-- A VHDX image as `read_sectors` consults it. The BAT payload entry of each
block is modelled by its two bitfields; the file, the parent stream and the
sector-bitmap machinery of the PARTIALLY_PRESENT branch are abstracted as
byte-producing functions (the claim under verification exercises none of them). -/
structure Disk where
  sectorSize : Nat
  sectorsPerBlock : Nat
  hasParent : Bool
  batState : Nat → Nat
  batFileOffsetMb : Nat → Nat
  fileRead : Nat → Nat → List Nat
  parentRead : Nat → Nat → List Nat
  bitmapRead : Nat → Nat → Nat → List Nat

/-- Embedding of the loop body of `VHDX.read_sectors` for one block: the bytes
appended to `sectors_read` for the block containing `sector`. None of the
`elif` arms match a BAT state outside {0, 1, 3, 6, 7}, so such a block
contributes no bytes at all. -/
def read_sectors_block (v : Disk) (sector readCount : Nat) : List Nat :=
  let readSize := readCount * v.sectorSize
  let block := sector / v.sectorsPerBlock
  let sectorInBlock := sector % v.sectorsPerBlock
  let st := v.batState block
  if st = PAYLOAD_BLOCK_NOT_PRESENT then
    if v.hasParent then v.parentRead sector readCount
    else List.replicate readSize 0
  else if st = PAYLOAD_BLOCK_UNDEFINED ∨ st = PAYLOAD_BLOCK_UNMAPPED then
    List.replicate readSize 0
  else if st = PAYLOAD_BLOCK_FULLY_PRESENT then
    v.fileRead (v.batFileOffsetMb block * MB + sectorInBlock * v.sectorSize) readSize
  else if st = PAYLOAD_BLOCK_PART_PRESENT then
    v.bitmapRead block sectorInBlock readCount
  else
    []

/-- Embedding of the `while count > 0` loop of `VHDX.read_sectors`. The fuel
argument only bounds the number of iterations; since `sectors_per_block` is
positive for every valid image, `fuel = count` always suffices. -/
def read_sectors_loop (v : Disk) : Nat → Nat → Nat → List Nat
  | 0, _, _ => []
  | fuel + 1, sector, count =>
    if count = 0 then []
    else
      let readCount := min count v.sectorsPerBlock
      read_sectors_block v sector readCount
        ++ read_sectors_loop v fuel (sector + readCount) (count - readCount)

/-- Embedding of `VHDX.read_sectors`. -/
def read_sectors (v : Disk) (sector count : Nat) : List Nat :=
  read_sectors_loop v count sector count

/-- A one-block disk whose single BAT payload entry carries the given state;
every byte source holds a sentinel nonzero byte so that zero-filled output is
distinguishable from file or parent data. -/
def diskWithState (st : Nat) : Disk where
  sectorSize := 512
  sectorsPerBlock := 8
  hasParent := false
  batState := fun _ => st
  batFileOffsetMb := fun _ => 3
  fileRead := fun _ n => List.replicate n 0xAA
  parentRead := fun _ n => List.replicate (n * 512) 0xBB
  bitmapRead := fun _ _ n => List.replicate (n * 512) 0xCC

end VHDX

/-- C2: the specification claims a block whose BAT payload state is UNDEFINED,
UNMAPPED or ZERO reads back as the full requested run of zero bytes. The
embedded `read_sectors` does return 4096 zero bytes for the UNDEFINED (1) and
UNMAPPED (3) states, but for the ZERO state (2) no `elif` arm matches, nothing
is appended for the block, and the 8-sector read returns no bytes at all. -/
theorem vhdx_zero_state_read_bug :
    VHDX.read_sectors (VHDX.diskWithState 1) 0 8 = List.replicate 4096 0
    ∧ VHDX.read_sectors (VHDX.diskWithState 3) 0 8 = List.replicate 4096 0
    ∧ VHDX.read_sectors (VHDX.diskWithState 2) 0 8 = [] := by
  refine ⟨?_, ?_, ?_⟩
  · show List.replicate 4096 0 ++ [] = List.replicate 4096 0
    exact List.append_nil _
  · show List.replicate 4096 0 ++ [] = List.replicate 4096 0
    exact List.append_nil _
  · rfl

namespace VDI

/-- A run of bytes produced by `VDIStream._read`: from the parent stream at a
logical offset, zero filled, or raw bytes of this file at a physical offset. -/
inductive Run where
  | parent (offset len : Nat)
  | zero (len : Nat)
  | raw (physOffset : Int) (len : Nat)
deriving DecidableEq, Repr

/-- A VDI image as `VDIStream._read` consults it: the block size, the data
offset, whether a parent is attached, and the signed 32-bit block map. -/
structure Image where
  blockSize : Nat
  dataOffset : Nat
  hasParent : Bool
  map : Nat → Int

/-- Embedding of the `while length > 0` loop of `VDIStream._read`. As in the
source, `offset_in_block` is computed once before the loop and never updated,
and the per-iteration read length is literally
`min(length, max(length, block_size - offset_in_block))`. The fuel argument
only bounds the iterations; the loop consumes at least one byte per iteration,
so `fuel = length` always suffices. -/
def read_loop (v : Image) (offsetInBlock : Nat) :
    Nat → Nat → Nat → Nat → List Run
  | 0, _, _, _ => []
  | fuel + 1, blockIdx, offset, length =>
    if length = 0 then []
    else
      let readLen := min length (max length (v.blockSize - offsetInBlock))
      let block := v.map blockIdx
      let run :=
        if block = -1 then
          if v.hasParent then Run.parent offset readLen else Run.zero readLen
        else if block = -2 then Run.zero readLen
        else Run.raw ((v.dataOffset : Int) + block * (v.blockSize : Int)
          + (offsetInBlock : Int)) readLen
      run :: read_loop v offsetInBlock fuel (blockIdx + 1) (offset + readLen)
        (length - readLen)

/-- Embedding of `VDIStream._read`. -/
def stream_read (v : Image) (offset length : Nat) : List Run :=
  let blockIdx := offset / v.blockSize
  let offsetInBlock := offset % v.blockSize
  read_loop v offsetInBlock length blockIdx offset length

/-- The read the specification describes: every covered block is resolved
through its own block-map entry, so each iteration reads at most to the end of
the current block (`min(length, block_size - offset_in_block)`) before moving
to the next entry. -/
def spec_read_loop (v : Image) : Nat → Nat → Nat → List Run
  | 0, _, _ => []
  | fuel + 1, offset, length =>
    if length = 0 then []
    else
      let blockIdx := offset / v.blockSize
      let offsetInBlock := offset % v.blockSize
      let readLen := min length (v.blockSize - offsetInBlock)
      let block := v.map blockIdx
      let run :=
        if block = -1 then
          if v.hasParent then Run.parent offset readLen else Run.zero readLen
        else if block = -2 then Run.zero readLen
        else Run.raw ((v.dataOffset : Int) + block * (v.blockSize : Int)
          + (offsetInBlock : Int)) readLen
      run :: spec_read_loop v fuel (offset + readLen) (length - readLen)

/-- The specified read of `(offset, length)`. -/
def spec_read (v : Image) (offset length : Nat) : List Run :=
  spec_read_loop v length offset length

/-- A two-block image: block 0 is a zero block (`-2`), block 1 is stored at
physical block index 0. -/
def twoBlockImage : Image where
  blockSize := 512
  dataOffset := 4096
  hasParent := false
  map := fun i => if i = 0 then -2 else 0

end VDI

/-- C3: the specification claims a VDI read spanning several consecutive blocks
resolves each covered block through its own block-map entry. In the source the
per-iteration read length `min(length, max(length, block_size - offset_in_block))`
always equals `length`, so an aligned two-block read is resolved entirely through
the first block-map entry: on an image whose map is `[-2 (zero), 0 (raw)]`, the
code reads 1024 zero bytes, while the specified behaviour is 512 zero bytes for
block 0 followed by 512 raw bytes of block 1 at `data_offset`. -/
theorem vdi_multi_block_read_bug :
    VDI.stream_read VDI.twoBlockImage 0 1024 = [VDI.Run.zero 1024]
    ∧ VDI.spec_read VDI.twoBlockImage 0 1024
        = [VDI.Run.zero 512, VDI.Run.raw 4096 512] := by
  exact ⟨by decide, by decide⟩

namespace QCow2

/-- Constant `L1E_OFFSET_MASK` (numerically equal to `L2E_OFFSET_MASK`). -/
def L1E_OFFSET_MASK : Nat := 0x00fffffffffffe00

/-- Outcome of the L1 stage of one iteration of `QCow2Stream._yield_runs`:
either the run is treated as unallocated-plain (absent, falling back to the
backing file or zeros) for the rest of the L2 region, or an L2 table at the
masked offset is consulted. -/
inductive L1Resolution where
  | absentRun
  | l2Lookup (l2Offset : Nat)
deriving DecidableEq, Repr

/-- The stream state `QCow2Stream._yield_runs` consults for the L1 stage:
`l2_bits`, `cluster_bits`, the header field `l1_size` and the loaded L1 table
(a list of `l1_size` 64-bit entries). -/
structure StreamCfg where
  clusterBits : Nat
  l2Bits : Nat
  l1Size : Nat
  l1Table : List Nat
deriving DecidableEq, Repr

/-- Embedding of the L1 stage of one iteration of `QCow2Stream._yield_runs`:
`l1_index = offset >> (l2_bits + cluster_bits)`, the `l1_index > l1_size`
guard yielding an unallocated-plain run, and otherwise the
`l1_table[l1_index]` lookup (an out-of-bounds list access models the Python
`IndexError`) followed by the zero-l2-offset test. -/
def yield_runs_l1_stage (s : StreamCfg) (offset : Nat) : Except String L1Resolution :=
  let l1_index := offset >>> (s.l2Bits + s.clusterBits)
  if l1_index > s.l1Size then .ok .absentRun
  else
    match s.l1Table.get? l1_index with
    | none => .error "IndexError"
    | some e =>
      let l2_offset := e &&& L1E_OFFSET_MASK
      if l2_offset = 0 then .ok .absentRun
      else .ok (.l2Lookup l2_offset)

/-- A stream over an image with a single-entry L1 table (`l1_size = 1`),
64 KiB clusters and 8 KiB L2 tables. -/
def oneEntryStream : StreamCfg where
  clusterBits := 16
  l2Bits := 13
  l1Size := 1
  l1Table := [0]

end QCow2

/-- C8: the specification claims that whenever
`l1_index = offset >> (l2_bits + cluster_bits)` is at least `l1_size`, the
region is treated as absent and the L1 table is never indexed out of bounds.
The source guards with `l1_index > l1_size` instead of `>=`, so on a stream
whose L1 table has exactly `l1_size = 1` entry, the offset with `l1_index = 1`
slips past the guard and raises `IndexError` from `l1_table[1]`, while the
offset with `l1_index = 2` is treated as absent as claimed. -/
theorem qcow2_l1_index_bound_bug :
    QCow2.yield_runs_l1_stage QCow2.oneEntryStream (1 <<< 29) = .error "IndexError"
    ∧ QCow2.yield_runs_l1_stage QCow2.oneEntryStream (2 <<< 29)
        = .ok QCow2.L1Resolution.absentRun
    ∧ QCow2.oneEntryStream.l1Table.length = QCow2.oneEntryStream.l1Size := by
  exact ⟨rfl, rfl, rfl⟩

namespace QCow2

/-- The big-endian serialization of the QCOW2 magic, `QCOW2_MAGIC_BYTES`. -/
def QCOW2_MAGIC_BYTES : List Nat := [0x51, 0x46, 0x49, 0xFB]

/-- A file handle over immutable content with a current position. -/
structure FileState where
  content : List Nat
  pos : Nat
deriving DecidableEq, Repr

/-- A `fh.read n` call: up to `n` bytes from the current position, advancing it. -/
def fileRead (fs : FileState) (n : Nat) : List Nat × FileState :=
  ((fs.content.drop fs.pos).take n,
    { fs with pos := min (fs.pos + n) fs.content.length })

/-- How the backing file ends up being used as the parent stream. -/
inductive BackingKind where
  | nested
  | raw
deriving DecidableEq, Repr

/-- Embedding of the backing-file sniff in `QCow2.__init__`: read 4 bytes from
the freshly opened backing file; when they equal `QCOW2_MAGIC_BYTES` the
backing file is recursively opened as a nested `QCow2` translation stream,
otherwise the handle is rewound to offset 0 and used directly. -/
def open_backing_file (content : List Nat) : BackingKind × FileState :=
  let fs : FileState := { content := content, pos := 0 }
  let res := fileRead fs 4
  if res.1 = QCOW2_MAGIC_BYTES then (.nested, res.2)
  else (.raw, { res.2 with pos := 0 })

end QCow2

/-- C10: when a QCOW2 image declares a backing file, the first 4 bytes of the
backing file are sniffed; exactly when they equal the QCOW2 magic the backing
file is recursively opened as a nested QCOW2 translation stream, and otherwise
the handle is rewound to position 0 and used directly as a raw parent stream. -/
theorem qcow2_backing_file_sniff (content : List Nat) :
    (QCow2.open_backing_file content).1
      = (if content.take 4 = QCow2.QCOW2_MAGIC_BYTES then QCow2.BackingKind.nested
         else QCow2.BackingKind.raw)
    ∧ (QCow2.open_backing_file content).2.pos
      = (if content.take 4 = QCow2.QCOW2_MAGIC_BYTES then min 4 content.length else 0) := by
  unfold QCow2.open_backing_file QCow2.fileRead
  simp only [List.drop_zero, Nat.zero_add]
  split <;> simp_all

namespace VBK

/-- The `CompressionType` enum value `Plain` (a signed 8-bit value). -/
def CT_PLAIN : Int := -1

/-- The `CompressionType` enum value `LZ4`. -/
def CT_LZ4 : Int := 7

/-- The fields of a storage-block descriptor (`StgBlockDescriptor`) that
`FibStream._read` consults. -/
structure StgBlock where
  offset : Nat
  allocatedSize : Nat
  compressedSize : Nat
  sourceSize : Nat
  compressionType : Int
deriving DecidableEq, Repr

/-- Embedding of `StgBlockDescriptor.is_compressed`. -/
def StgBlock.isCompressed (b : StgBlock) : Bool :=
  b.compressionType != CT_PLAIN

/-- The bytes materialized for one Normal FIB block: a verbatim read of the
file, or an LZ4 read whose first `skipBytes` bytes are dropped before
decompressing to `targetSize` bytes. -/
inductive BlockRead where
  | plain (readOffset readLength : Nat)
  | lz4 (readOffset readLength skipBytes targetSize : Nat)
deriving DecidableEq, Repr

/-- The number of bytes a `BlockRead` reads from the file. -/
def BlockRead.readLength : BlockRead → Nat
  | .plain _ n => n
  | .lz4 _ n _ _ => n

/-- Embedding of the Normal branch of `FibStream._read`: the block descriptor
is looked up in the block store by `block_id`, the file is read at the
descriptor offset for `compressed_size` bytes, and when the block is
compressed the LZ4 path skips the 12-byte `Lz4BlockHeader` and decompresses to
`source_size` bytes, any other compression type raising an error. -/
def fib_read_normal (store : Nat → StgBlock) (blockId : Nat) :
    Except String BlockRead :=
  let block := store blockId
  if block.isCompressed then
    if block.compressionType = CT_LZ4 then
      .ok (.lz4 block.offset block.compressedSize 12 block.sourceSize)
    else .error "Unsupported compression type"
  else .ok (.plain block.offset block.compressedSize)

/-- The Normal-branch read as amended: `compressed_size` bytes are read at the
descriptor offset; a Plain block is returned verbatim, an LZ4 block is
decompressed to `source_size` after dropping the 12-byte `Lz4BlockHeader`, and
every other compression type is rejected as unsupported. -/
def fib_read_normal_amended (store : Nat → StgBlock) (blockId : Nat) :
    Except String BlockRead :=
  let b := store blockId
  if b.compressionType = CT_PLAIN then .ok (.plain b.offset b.compressedSize)
  else if b.compressionType = CT_LZ4 then
    .ok (.lz4 b.offset b.compressedSize 12 b.sourceSize)
  else .error "Unsupported compression type"

/-- A block store holding a single LZ4-compressed descriptor whose allocated
size (1 MiB) differs from its compressed size (0x8000 bytes). -/
def exampleStore : Nat → StgBlock := fun _ =>
  { offset := 0x100000
    allocatedSize := 0x100000
    compressedSize := 0x8000
    sourceSize := 0x100000
    compressionType := CT_LZ4 }

end VBK

/-- C4 counterexample: the claim states that `FibStream._read` reads
`allocated_size` bytes at the descriptor offset for a Normal block; on a
descriptor whose allocated size is 1 MiB but whose compressed size is 0x8000,
the embedded code reads 0x8000 bytes, not `allocated_size`. -/
theorem vbk_fib_read_allocated_size_refuted :
    (VBK.fib_read_normal VBK.exampleStore 5).map VBK.BlockRead.readLength
      ≠ .ok (VBK.exampleStore 5).allocatedSize := by
  intro h
  have h2 : (0x8000 : Nat) = 0x100000 :=
    Except.ok.inj (show (Except.ok (0x8000 : Nat) : Except String Nat)
      = Except.ok 0x100000 from h)
  omega

/-- C4 as amended: for every block store and block id, the Normal branch of
`FibStream._read` reads `compressed_size` bytes at the descriptor offset,
returns them verbatim for a Plain block, decompresses an LZ4 block to
`source_size` bytes after dropping the 12-byte `Lz4BlockHeader`, and rejects
every other compression type as unsupported. -/
theorem vbk_fib_read_normal_amended_ok (store : Nat → VBK.StgBlock) (blockId : Nat) :
    VBK.fib_read_normal store blockId = VBK.fib_read_normal_amended store blockId := by
  unfold VBK.fib_read_normal VBK.fib_read_normal_amended VBK.StgBlock.isCompressed
  by_cases h1 : (store blockId).compressionType = VBK.CT_PLAIN
  · by_cases h2 : (store blockId).compressionType = VBK.CT_LZ4
    · rw [h1] at h2
      exact absurd h2 (by decide)
    · simp [h1, h2]
  · by_cases h2 : (store blockId).compressionType = VBK.CT_LZ4
    · simp [h1, h2]
    · simp [h1, h2]

namespace VBK

/-- Size in bytes of the packed `SnapshotDescriptor` structure. -/
def SNAPSHOT_DESCRIPTOR_SIZE : Nat := 108

/-- Size in bytes of the packed `BankDescriptor` structure. -/
def BANK_DESCRIPTOR_SIZE : Nat := 16

/-- The attributes of a parsed `SnapshotSlot` consulted by verification and by
the active-slot selection: the slot offset in the file, the stored header CRC,
the `ContainsSnapshot` flag, the descriptor `Version`, and the grain
`MaxBanks`. -/
structure Slot where
  offset : Nat
  crc : Nat
  containsSnapshot : Bool
  version : Nat
  maxBanks : Nat
deriving DecidableEq, Repr

/-- A `fh.seek(offset); fh.read(len)` pair over a file modelled as a function
from byte positions to byte values. -/
def read_bytes (file : Nat → Nat) (offset len : Nat) : List Nat :=
  (List.range len).map (fun i => file (offset + i))

/-- Embedding of `SnapshotSlot.verify`: a slot without a snapshot never
verifies; otherwise the checksum function is CRC-32C when
`SnapshotSlotFormat > 5` and CRC-32 otherwise, and it is applied to the bytes
starting 4 bytes into the slot, spanning the remaining 4 header bytes, the
snapshot descriptor, the 8-byte banks grain and `MaxBanks` bank descriptors,
then compared against the stored CRC. The two checksum functions are external
library routines and are abstracted as function parameters. -/
def slot_verify (crc32 crc32c : List Nat → Nat) (slotFormat : Nat)
    (file : Nat → Nat) (s : Slot) : Bool :=
  if !s.containsSnapshot then false
  else
    let crc := if slotFormat > 5 then crc32c else crc32
    let length := 4 + SNAPSHOT_DESCRIPTOR_SIZE + 8 + s.maxBanks * BANK_DESCRIPTOR_SIZE
    crc (read_bytes file (s.offset + 4) length) == s.crc

/-- Python `max(slots, key=lambda s: s.Version, default=None)`: the first
element attaining the maximal key, or `none` for an empty list. -/
def py_max_by_version : List Slot → Option Slot
  | [] => none
  | s :: rest =>
    some (rest.foldl (fun acc x => if x.version > acc.version then x else acc) s)

/-- Embedding of the active-slot selection in `VBK.__init__`: keep the slots
whose header has `ContainsSnapshot` set, additionally keep only verifying
slots when verification is enabled, and pick the one with the highest
descriptor version. -/
def active_slot (crc32 crc32c : List Nat → Nat) (slotFormat : Nat)
    (file : Nat → Nat) (verify : Bool) (slot1 slot2 : Slot) : Option Slot :=
  let populated := [slot1, slot2].filter (fun s => s.containsSnapshot)
  let populated :=
    if verify then populated.filter (slot_verify crc32 crc32c slotFormat file)
    else populated
  py_max_by_version populated

/-- Slot validity as the claim words it: the `ContainsSnapshot` flag is set and
the CRC matches, computed with CRC-32C when `SnapshotSlotFormat > 5` and
CRC-32 otherwise, over the bytes from CRC+4 spanning the remaining header, the
snapshot descriptor, 8 bytes of grain header, and `MaxBanks` bank
descriptors. -/
def spec_slot_valid (crc32 crc32c : List Nat → Nat) (slotFormat : Nat)
    (file : Nat → Nat) (s : Slot) : Prop :=
  s.containsSnapshot = true
  ∧ (if slotFormat > 5 then crc32c else crc32)
      (read_bytes file (s.offset + 4)
        (4 + SNAPSHOT_DESCRIPTOR_SIZE + 8 + s.maxBanks * BANK_DESCRIPTOR_SIZE))
    = s.crc

/-- A slot that verifies has its `ContainsSnapshot` flag set. -/
theorem slot_verify_contains {crc32 crc32c : List Nat → Nat} {slotFormat : Nat}
    {file : Nat → Nat} {s : Slot}
    (h : slot_verify crc32 crc32c slotFormat file s = true) :
    s.containsSnapshot = true := by
  cases hc : s.containsSnapshot
  · rw [slot_verify, hc] at h
    simp at h
  · rfl

/-- The all-zero checksum function used by the witness. -/
def czero : List Nat → Nat := fun _ => 0

/-- The all-zero file used by the witness. -/
def zfile : Nat → Nat := fun _ => 0

/-- Witness slot 1: version 1, matching stored CRC 0. -/
def slotA : Slot :=
  { offset := 4096, crc := 0, containsSnapshot := true, version := 1, maxBanks := 0 }

/-- Witness slot 2: version 2, matching stored CRC 0. -/
def slotB : Slot :=
  { offset := 8192, crc := 0, containsSnapshot := true, version := 2, maxBanks := 0 }

/-- Witness slot 2 with a corrupted stored CRC. -/
def slotBbad : Slot :=
  { offset := 8192, crc := 1, containsSnapshot := true, version := 2, maxBanks := 0 }

end VBK

/-- C5: with verification enabled, a snapshot slot is valid exactly when its
`ContainsSnapshot` flag is set and its CRC matches (CRC-32C when
`SnapshotSlotFormat > 5`, else CRC-32, over the bytes from CRC+4 spanning the
remaining header, the snapshot descriptor, 8 bytes of grain header and
`MaxBanks` bank descriptors); the active slot is the valid slot with the
highest version, so two valid slots with versions `v1 < v2` select the second,
and a second slot that fails verification falls back to the first. -/
theorem vbk_active_slot_selection (crc32 crc32c : List Nat → Nat)
    (slotFormat : Nat) (file : Nat → Nat) (s1 s2 : VBK.Slot) :
    (∀ s : VBK.Slot,
      VBK.slot_verify crc32 crc32c slotFormat file s = true
        ↔ VBK.spec_slot_valid crc32 crc32c slotFormat file s)
    ∧ (VBK.slot_verify crc32 crc32c slotFormat file s1 = true →
        VBK.slot_verify crc32 crc32c slotFormat file s2 = true →
        s1.version < s2.version →
        VBK.active_slot crc32 crc32c slotFormat file true s1 s2 = some s2)
    ∧ (VBK.slot_verify crc32 crc32c slotFormat file s1 = true →
        VBK.slot_verify crc32 crc32c slotFormat file s2 = false →
        VBK.active_slot crc32 crc32c slotFormat file true s1 s2 = some s1) := by
  refine ⟨?_, ?_, ?_⟩
  · intro s
    rw [VBK.slot_verify, VBK.spec_slot_valid]
    cases hc : s.containsSnapshot <;> simp [hc]
  · intro h1 h2 hv
    have hc1 := VBK.slot_verify_contains h1
    have hc2 := VBK.slot_verify_contains h2
    rw [VBK.active_slot]
    simp only [List.filter, hc1, hc2, h1, h2, if_true]
    rw [VBK.py_max_by_version]
    simp [hv]
  · intro h1 h2
    have hc1 := VBK.slot_verify_contains h1
    rw [VBK.active_slot]
    cases hc2 : s2.containsSnapshot
    · simp only [List.filter, hc1, hc2, h1, if_true]
      rw [VBK.py_max_by_version]
      simp
    · simp only [List.filter, hc1, hc2, h1, h2, if_true]
      rw [VBK.py_max_by_version]
      simp

/-- C5 witness: two populated slots with matching CRCs and versions 1 and 2
select the second slot, and corrupting the stored CRC of the second slot makes
the first slot active. -/
theorem vbk_active_slot_selection_witness :
    VBK.active_slot VBK.czero VBK.czero 6 VBK.zfile true VBK.slotA VBK.slotB
      = some VBK.slotB
    ∧ VBK.active_slot VBK.czero VBK.czero 6 VBK.zfile true VBK.slotA VBK.slotBbad
      = some VBK.slotA :=
  ⟨(vbk_active_slot_selection VBK.czero VBK.czero 6 VBK.zfile VBK.slotA VBK.slotB).2.1
      rfl rfl (by decide),
   (vbk_active_slot_selection VBK.czero VBK.czero 6 VBK.zfile VBK.slotA VBK.slotBbad).2.2
      rfl rfl⟩

namespace VBK

/-- Constant `_MAX_TABLE_ENTRIES_PER_PAGE = PAGE_SIZE // 8 = 512`. -/
def MAX_TABLE_ENTRIES_PER_PAGE : Nat := 512

/-- The tuple `_MAX_TABLE_ENTRIES_LOOKUP = (511, 508, 511)` of
`MetaVector2`, indexed by `table_idx % 3`. -/
def MAX_TABLE_ENTRIES_LOOKUP : Nat → Nat
  | 0 => MAX_TABLE_ENTRIES_PER_PAGE - 1
  | 1 => MAX_TABLE_ENTRIES_PER_PAGE - 4
  | _ => MAX_TABLE_ENTRIES_PER_PAGE - 1

/-- Embedding of the `while True` loop of `MetaVector2._lookup_page` over the
table of 64-bit values `t`. The fuel argument only bounds the iterations; each
iteration consumes at least 508 table slots, so `fuel = idx + 1` always
suffices. -/
def lookup_page_loop (t : Nat → Int) : Nat → Nat → Nat → Int
  | 0, _, _ => 0
  | fuel + 1, tableIdx, idx =>
    let maxEntries := MAX_TABLE_ENTRIES_LOOKUP (tableIdx % 3)
    if idx < maxEntries then
      t (tableIdx * MAX_TABLE_ENTRIES_PER_PAGE
        + (MAX_TABLE_ENTRIES_PER_PAGE - maxEntries) + idx)
    else lookup_page_loop t fuel (tableIdx + 1) (idx - maxEntries)

/-- Embedding of `MetaVector2._lookup_page`: the first 510 index values live in
page 0 after a two-slot header, and the remainder walks the later pages. -/
def lookup_page (t : Nat → Int) (idx : Nat) : Int :=
  if idx < MAX_TABLE_ENTRIES_PER_PAGE - 2 then t (idx + 2)
  else lookup_page_loop t (idx + 1) 1 (idx - (MAX_TABLE_ENTRIES_PER_PAGE - 2))

/-- The page walk as the claim words it: pages after page 0 cycle through slot
capacities 508, 511, 511, corresponding to 32-, 8- and 8-byte headers (4, 1
and 1 occupied 8-byte slots). -/
def spec_lookup_loop (t : Nat → Int) : Nat → Nat → Nat → Int
  | 0, _, _ => 0
  | fuel + 1, page, idx =>
    let headerSlots := if page % 3 = 1 then 4 else 1
    let capacity := 512 - headerSlots
    if idx < capacity then t (page * 512 + headerSlots + idx)
    else spec_lookup_loop t fuel (page + 1) (idx - capacity)

/-- The lookup as the claim words it: logical slot `i` lives in page 0 after
its 16-byte header (two 8-byte slots) for `i < 510`, and in the cycling later
pages otherwise. -/
def spec_lookup (t : Nat → Int) (idx : Nat) : Int :=
  if idx < 510 then t (2 + idx) else spec_lookup_loop t (idx + 1) 1 (idx - 510)

/-- The loop of the code lookup and the page walk of the claim coincide. -/
theorem lookup_page_loop_eq_spec (fuel : Nat) :
    ∀ (t : Nat → Int) (tableIdx idx : Nat),
      lookup_page_loop t fuel tableIdx idx = spec_lookup_loop t fuel tableIdx idx := by
  induction fuel with
  | zero => intro t tableIdx idx; rfl
  | succ n ih =>
    intro t tableIdx idx
    rw [lookup_page_loop, spec_lookup_loop]
    have hm : tableIdx % 3 = 0 ∨ tableIdx % 3 = 1 ∨ tableIdx % 3 = 2 := by omega
    rcases hm with hm | hm | hm <;>
      simp only [hm, MAX_TABLE_ENTRIES_LOOKUP, MAX_TABLE_ENTRIES_PER_PAGE] <;>
      norm_num <;> split <;> first | rfl | exact ih t (tableIdx + 1) _

/-- A synthetic two-level table whose logical slot `i` stores the value `i`,
covering the first four pages (capacity `510 + 508 + 511 + 511 = 2040`): the
value at physical 8-byte slot `j` is the number of data slots preceding it. -/
def synth_table (j : Nat) : Int :=
  if j < 512 then (j : Int) - 2
  else if j < 1024 then (j : Int) - 6
  else if j < 1536 then (j : Int) - 7
  else if j < 2048 then (j : Int) - 8
  else 0

/-- One unfolding step of the lookup loop. -/
theorem lookup_page_loop_step (t : Nat → Int) (fuel tableIdx idx : Nat) :
    lookup_page_loop t (fuel + 1) tableIdx idx =
      if idx < MAX_TABLE_ENTRIES_LOOKUP (tableIdx % 3) then
        t (tableIdx * MAX_TABLE_ENTRIES_PER_PAGE
          + (MAX_TABLE_ENTRIES_PER_PAGE - MAX_TABLE_ENTRIES_LOOKUP (tableIdx % 3)) + idx)
      else
        lookup_page_loop t fuel (tableIdx + 1)
          (idx - MAX_TABLE_ENTRIES_LOOKUP (tableIdx % 3)) := rfl

/-- On the synthetic table, the page walk starting at page 1 maps the residual
index `j` to the logical slot `510 + j` for the three pages it covers. -/
theorem lookup_loop_synth (fuel j : Nat) (hf : 3 ≤ fuel) (hj : j < 1530) :
    lookup_page_loop synth_table fuel 1 j = 510 + (j : Int) := by
  obtain ⟨f, rfl⟩ : ∃ f, fuel = f + 3 := ⟨fuel - 3, by omega⟩
  rw [show f + 3 = (f + 2) + 1 by omega, lookup_page_loop_step]
  simp only [MAX_TABLE_ENTRIES_LOOKUP, MAX_TABLE_ENTRIES_PER_PAGE]
  norm_num
  by_cases h1 : j < 508
  · rw [if_pos h1]
    simp only [synth_table]
    rw [if_neg (by omega), if_pos (by omega)]
    push_cast
    omega
  · rw [if_neg h1, show f + 2 = (f + 1) + 1 by omega, lookup_page_loop_step]
    simp only [MAX_TABLE_ENTRIES_LOOKUP, MAX_TABLE_ENTRIES_PER_PAGE]
    norm_num
    by_cases h2 : j < 1019
    · rw [if_pos (by omega)]
      simp only [synth_table]
      rw [if_neg (by omega), if_neg (by omega), if_pos (by omega)]
      omega
    · rw [if_neg (by omega), lookup_page_loop_step]
      simp only [MAX_TABLE_ENTRIES_LOOKUP, MAX_TABLE_ENTRIES_PER_PAGE]
      norm_num
      rw [if_pos (by omega)]
      simp only [synth_table]
      rw [if_neg (by omega), if_neg (by omega), if_neg (by omega), if_pos (by omega)]
      omega

end VBK

/-- C6: `MetaVector2._lookup_page(i)` returns the 64-bit value stored at
logical slot `i` of the two-level table, whose layout gives page 0 a 16-byte
header and 510 slots and later pages the cycling capacities 508, 511, 511
(32-, 8- and 8-byte headers); and on a synthetic table whose logical slot `i`
stores the value `i`, the lookup returns `i` for every `i` below the 2040-slot
capacity of a four-page table. -/
theorem vbk_metavector2_lookup :
    (∀ (t : Nat → Int) (idx : Nat), VBK.lookup_page t idx = VBK.spec_lookup t idx)
    ∧ ∀ idx : Nat, idx < 2040 → VBK.lookup_page VBK.synth_table idx = idx := by
  constructor
  · intro t idx
    rw [VBK.lookup_page, VBK.spec_lookup]
    simp only [VBK.MAX_TABLE_ENTRIES_PER_PAGE]
    norm_num
    split
    · rw [Nat.add_comm]
    · exact VBK.lookup_page_loop_eq_spec (idx + 1) t 1 (idx - 510)
  · intro idx h
    rw [VBK.lookup_page]
    simp only [VBK.MAX_TABLE_ENTRIES_PER_PAGE]
    norm_num
    by_cases h0 : idx < 510
    · rw [if_pos h0]
      simp only [VBK.synth_table]
      rw [if_pos (by omega)]
      omega
    · rw [if_neg h0, VBK.lookup_loop_synth (idx + 1) (idx - 510) (by omega) (by omega)]
      omega

/-- C6 witness: on the synthetic table, looking up logical slots from each of
the four pages returns the slot number itself. -/
theorem vbk_metavector2_lookup_witness :
    VBK.lookup_page VBK.synth_table 0 = 0
    ∧ VBK.lookup_page VBK.synth_table 700 = 700
    ∧ VBK.lookup_page VBK.synth_table 1300 = 1300
    ∧ VBK.lookup_page VBK.synth_table 2039 = 2039 :=
  ⟨vbk_metavector2_lookup.2 0 (by decide),
   vbk_metavector2_lookup.2 700 (by decide),
   vbk_metavector2_lookup.2 1300 (by decide),
   vbk_metavector2_lookup.2 2039 (by decide)⟩

namespace VBK

/-- Embedding of `VBK.is_v7`: true for format version 7, 0x10008, and every
version of at least 9. -/
def is_v7 (formatVersion : Nat) : Bool :=
  formatVersion == 7 || formatVersion == 0x10008 || decide (9 ≤ formatVersion)

/-- The two storage-block descriptor layouts the block store can be decoded
with. -/
inductive StgDescriptorKind where
  | plain
  | v7
deriving DecidableEq, Repr

/-- In `VBK.__init__` the element type of the block store is chosen by the
expression `StgBlockDescriptorV7 if self.is_v7 else StgBlockDescriptor`. The
condition is the attribute `self.is_v7` itself, the bound-method object, not
the result of calling it; a bound method object is always truthy in Python, so
the condition evaluates to true for every format version. -/
def is_v7_method_truthiness : Bool := true

/-- Embedding of the block-store descriptor choice in `VBK.__init__`. -/
def block_store_descriptor (_formatVersion : Nat) : StgDescriptorKind :=
  if is_v7_method_truthiness then .v7 else .plain

/-- The descriptor choice the claim describes: the V7 layout exactly when
`is_v7` holds of the format version. -/
def spec_block_store_descriptor (formatVersion : Nat) : StgDescriptorKind :=
  if is_v7 formatVersion then .v7 else .plain

end VBK

/-- C7: the claim states the block store is decoded with the V7 descriptor
exactly when `format_version` is 7, 0x10008 or at least 9, and with the plain
descriptor otherwise. For format version 8 the embedded code still selects the
V7 descriptor, because the selecting expression tests the truthiness of the
bound method `self.is_v7` instead of calling it, while the claim requires the
plain descriptor there. -/
theorem vbk_block_store_descriptor_bug :
    VBK.block_store_descriptor 8 = VBK.StgDescriptorKind.v7
    ∧ VBK.spec_block_store_descriptor 8 = VBK.StgDescriptorKind.plain
    ∧ VBK.is_v7 8 = false
    ∧ VBK.is_v7 7 = true ∧ VBK.is_v7 0x10008 = true ∧ VBK.is_v7 9 = true := by
  exact ⟨rfl, rfl, rfl, rfl, rfl, rfl⟩

namespace VHD

/-- Embedding of `BlockAllocationTable.get` of the VHD implementation: the
bounds check precedes any file access, and a stored entry of `0xFFFFFFFF` is
reported as absent (`none`). The file is modelled as the function giving the
32-bit BAT entry stored for each block index. -/
def bat_get (maxEntries : Nat) (file : Nat → Nat) (block : Nat) :
    Except String (Option Nat) :=
  if block + 1 > maxEntries then .error "Invalid block"
  else
    let sectorOffset := file block
    .ok (if sectorOffset = 0xFFFFFFFF then none else some sectorOffset)

end VHD

namespace VHDX

/-- The quantities `BlockAllocationTable.__init__` of the VHDX implementation
derives from the image: virtual disk size, block size, chunk ratio and whether
a parent is attached. -/
structure BatCfg where
  size : Nat
  blockSize : Nat
  chunkRatio : Nat
  hasParent : Bool
deriving DecidableEq, Repr

/-- Payload-block count `_pb_count = ceil(size / block_size)`. -/
def BatCfg.pbCount (c : BatCfg) : Nat :=
  (c.size + c.blockSize - 1) / c.blockSize

/-- Sector-bitmap count `_sb_count = ceil(pb_count / chunk_ratio)`. -/
def BatCfg.sbCount (c : BatCfg) : Nat :=
  (c.pbCount + c.chunkRatio - 1) / c.chunkRatio

/-- The BAT `entry_count`: with a parent, `sb_count * (chunk_ratio + 1)`;
without, `pb_count + (pb_count - 1) / chunk_ratio`. -/
def BatCfg.entryCount (c : BatCfg) : Nat :=
  if c.hasParent then c.sbCount * (c.chunkRatio + 1)
  else c.pbCount + (c.pbCount - 1) / c.chunkRatio

/-- Embedding of `BlockAllocationTable.get` of the VHDX implementation: the
bounds check precedes any file access. The file is modelled as the function
giving the 64-bit BAT entry stored at each index. -/
def bat_get (c : BatCfg) (file : Nat → Nat) (entry : Nat) : Except String Nat :=
  if entry + 1 > c.entryCount then .error "Invalid entry for BAT lookup"
  else .ok (file entry)

end VHDX

namespace VBK

/-- Embedding of `MetaVector.get`: the index is checked against the declared
count before the entry data is read. The page data is modelled as the function
giving the raw entry bytes at each index. -/
def meta_vector_get (count : Nat) (data : Nat → List Nat) (idx : Nat) :
    Except String (List Nat) :=
  if idx ≥ count then .error "MetaVector2 index out of range"
  else .ok (data idx)

end VBK

/-- C9: lookups at an index at or beyond the declared entry count raise an
error without performing any file read: the VHD BAT for `block >=
max_table_entries`, the VHDX BAT for `entry >=` the computed entry count, and
the VBK MetaVector for `idx >= count`. Each statement is universally
quantified over the file contents, so the error outcome cannot depend on any
read. -/
theorem index_table_out_of_range :
    (∀ (maxEntries : Nat) (file : Nat → Nat) (block : Nat),
      maxEntries ≤ block →
        VHD.bat_get maxEntries file block = .error "Invalid block")
    ∧ (∀ (c : VHDX.BatCfg) (file : Nat → Nat) (entry : Nat),
        c.entryCount ≤ entry →
          VHDX.bat_get c file entry = .error "Invalid entry for BAT lookup")
    ∧ (∀ (count : Nat) (data : Nat → List Nat) (idx : Nat),
        count ≤ idx →
          VBK.meta_vector_get count data idx
            = .error "MetaVector2 index out of range") := by
  refine ⟨?_, ?_, ?_⟩
  · intro maxEntries file block h
    rw [VHD.bat_get, if_pos (by omega)]
  · intro c file entry h
    rw [VHDX.bat_get, if_pos (by omega)]
  · intro count data idx h
    rw [VBK.meta_vector_get, if_pos (by omega)]

/-- C9 witness: a 4-entry VHD BAT rejects block 4, a parentless VHDX BAT over
a 6-block disk with chunk ratio 4 (entry count `6 + 1 = 7`) rejects entry 7,
and a 10-entry MetaVector rejects index 10. -/
theorem index_table_out_of_range_witness :
    VHD.bat_get 4 (fun _ => 0) 4 = .error "Invalid block"
    ∧ VHDX.bat_get
        { size := 6291456, blockSize := 1048576, chunkRatio := 4, hasParent := false }
        (fun _ => 0) 7 = .error "Invalid entry for BAT lookup"
    ∧ VBK.meta_vector_get 10 (fun _ => []) 10
        = .error "MetaVector2 index out of range" :=
  ⟨index_table_out_of_range.1 4 (fun _ => 0) 4 (by omega),
   index_table_out_of_range.2.1
     { size := 6291456, blockSize := 1048576, chunkRatio := 4, hasParent := false }
     (fun _ => 0) 7 (by decide),
   index_table_out_of_range.2.2 10 (fun _ => []) 10 (by omega)⟩
